import Mathlib

/-!
# UxtDefaultHandTrackerSubsystem

A shallow embedding of `UxtDefaultHandTracker.h` and
`UxtDefaultHandTrackerSubsystem.cpp`: the cached tracker state, the eight
button handlers, the per-frame `OnWorldPreActorTick`, and the login/logout
registration code, followed by the properties proved about them.

Engine calls are modelled as explicit state passing.  A C++ reference
argument that the callee writes (`FXRMotionControllerData&`, `bool&`) is
modelled as a value going in and a value coming out, so a callee that leaves
the argument untouched is representable.  `Initialize` and `Deinitialize` only
create the mapping context and subscribe the login and logout handlers; the
properties below start from a subsystem that is already initialised.
-/

namespace UxtDefaultHandTracker

/-! ## Engine value types -/

/-- Scalar carrier of the engine's vector types.  The subsystem only copies
scalars and never computes on them, so they are carried as uninterpreted
integer values. -/
abbrev Scalar := Int

/-- Engine enum `EControllerHand`; the subsystem uses `Left` and `Right`, and
`AnyHand` stands for the further values of the engine enum. -/
inductive EControllerHand where
  | Left
  | Right
  | AnyHand
  deriving DecidableEq, Repr

/-- Engine enum `ETrackingStatus`. -/
inductive ETrackingStatus where
  | NotTracked
  | InertialOnly
  | Tracked
  deriving DecidableEq, Repr

/-- Engine type `FVector`. -/
structure FVector where
  X : Scalar
  Y : Scalar
  Z : Scalar
  deriving DecidableEq, Repr

/-- Engine type `FQuat`. -/
structure FQuat where
  X : Scalar
  Y : Scalar
  Z : Scalar
  W : Scalar
  deriving DecidableEq, Repr

/-- Engine constant `FVector::OneVector`. -/
def FVector.OneVector : FVector := ⟨1, 1, 1⟩

/-- Engine type `FTransform`. -/
structure FTransform where
  Rotation : FQuat
  Translation : FVector
  Scale3D : FVector
  deriving DecidableEq, Repr

/-- Engine constructor `FTransform(const FQuat& InRotation, const FVector& InTranslation)`:
the scale is the one vector. -/
def FTransform.ofRotationTranslation (InRotation : FQuat) (InTranslation : FVector) : FTransform :=
  { Rotation := InRotation, Translation := InTranslation, Scale3D := FVector.OneVector }

/-- Engine type `FXRMotionControllerData` (`HeadMountedDisplayTypes.h`): per-hand
pose, joint and tracking-status data, with the engine's member defaults. -/
structure FXRMotionControllerData where
  bValid : Bool := false
  HandIndex : EControllerHand := EControllerHand.Left
  TrackingStatus : ETrackingStatus := ETrackingStatus.NotTracked
  AimPosition : FVector := ⟨0, 0, 0⟩
  AimRotation : FQuat := ⟨0, 0, 0, 0⟩
  GripPosition : FVector := ⟨0, 0, 0⟩
  GripRotation : FQuat := ⟨0, 0, 0, 0⟩
  HandKeyPositions : List FVector := []
  HandKeyRotations : List FQuat := []
  HandKeyRadii : List Scalar := []
  bIsGrasped : Bool := false
  deriving DecidableEq, Repr

/-! ## `UxtDefaultHandTracker.h` -/

/-- Data members of `FUxtDefaultHandTracker` (header lines 36-41). -/
structure FUxtDefaultHandTracker where
  ControllerData_Left : FXRMotionControllerData := {}
  ControllerData_Right : FXRMotionControllerData := {}
  bIsGrabbing_Left : Bool := false
  bIsSelectPressed_Left : Bool := false
  bIsGrabbing_Right : Bool := false
  bIsSelectPressed_Right : Bool := false
  deriving DecidableEq, Repr

/-- Engine type `FDelegateHandle`; the default handle has ID 0 and is invalid. -/
structure FDelegateHandle where
  ID : Nat := 0
  deriving DecidableEq, Repr

/-- Engine method `FDelegateHandle::IsValid`. -/
def FDelegateHandle.IsValid (H : FDelegateHandle) : Bool :=
  H.ID != 0

/-- Identity of a `UInputMappingContext` object. -/
abbrev UInputMappingContextRef := Nat

/-- Data members of `UUxtDefaultHandTrackerSubsystem` (header lines 69-75, and
`InputMappingContext` used by the implementation file). -/
structure UUxtDefaultHandTrackerSubsystem where
  DefaultHandTracker : FUxtDefaultHandTracker := {}
  InputMappingContext : UInputMappingContextRef := 0
  TickDelegateHandle : FDelegateHandle := {}
  PostLoginHandle : FDelegateHandle := {}
  LogoutHandle : FDelegateHandle := {}
  deriving DecidableEq, Repr

/-! ## Button handlers (`UxtDefaultHandTrackerSubsystem.cpp` lines 169-207) -/

/-- `UUxtDefaultHandTrackerSubsystem::OnLeftSelectPressed`. -/
def OnLeftSelectPressed (This : UUxtDefaultHandTrackerSubsystem) : UUxtDefaultHandTrackerSubsystem :=
  { This with DefaultHandTracker := { This.DefaultHandTracker with bIsSelectPressed_Left := true } }

/-- `UUxtDefaultHandTrackerSubsystem::OnLeftSelectReleased`. -/
def OnLeftSelectReleased (This : UUxtDefaultHandTrackerSubsystem) : UUxtDefaultHandTrackerSubsystem :=
  { This with DefaultHandTracker := { This.DefaultHandTracker with bIsSelectPressed_Left := false } }

/-- `UUxtDefaultHandTrackerSubsystem::OnLeftGripPressed`. -/
def OnLeftGripPressed (This : UUxtDefaultHandTrackerSubsystem) : UUxtDefaultHandTrackerSubsystem :=
  { This with DefaultHandTracker := { This.DefaultHandTracker with bIsGrabbing_Left := true } }

/-- `UUxtDefaultHandTrackerSubsystem::OnLeftGripReleased`. -/
def OnLeftGripReleased (This : UUxtDefaultHandTrackerSubsystem) : UUxtDefaultHandTrackerSubsystem :=
  { This with DefaultHandTracker := { This.DefaultHandTracker with bIsGrabbing_Left := false } }

/-- `UUxtDefaultHandTrackerSubsystem::OnRightSelectPressed`. -/
def OnRightSelectPressed (This : UUxtDefaultHandTrackerSubsystem) : UUxtDefaultHandTrackerSubsystem :=
  { This with DefaultHandTracker := { This.DefaultHandTracker with bIsSelectPressed_Right := true } }

/-- `UUxtDefaultHandTrackerSubsystem::OnRightSelectReleased`. -/
def OnRightSelectReleased (This : UUxtDefaultHandTrackerSubsystem) : UUxtDefaultHandTrackerSubsystem :=
  { This with DefaultHandTracker := { This.DefaultHandTracker with bIsSelectPressed_Right := false } }

/-- `UUxtDefaultHandTrackerSubsystem::OnRightGripPressed`. -/
def OnRightGripPressed (This : UUxtDefaultHandTrackerSubsystem) : UUxtDefaultHandTrackerSubsystem :=
  { This with DefaultHandTracker := { This.DefaultHandTracker with bIsGrabbing_Right := true } }

/-- `UUxtDefaultHandTrackerSubsystem::OnRightGripReleased`. -/
def OnRightGripReleased (This : UUxtDefaultHandTrackerSubsystem) : UUxtDefaultHandTrackerSubsystem :=
  { This with DefaultHandTracker := { This.DefaultHandTracker with bIsGrabbing_Right := false } }

/-- The eight member functions that `SetupForLocalPlayer` binds to input
actions, as a name for the bound method pointer. -/
inductive EButtonHandler where
  | OnLeftSelectPressed
  | OnLeftSelectReleased
  | OnLeftGripPressed
  | OnLeftGripReleased
  | OnRightSelectPressed
  | OnRightSelectReleased
  | OnRightGripPressed
  | OnRightGripReleased
  deriving DecidableEq, Repr

/-- Calling a bound handler on the subsystem. -/
def EButtonHandler.Execute (H : EButtonHandler) (This : UUxtDefaultHandTrackerSubsystem) :
    UUxtDefaultHandTrackerSubsystem :=
  match H with
  | .OnLeftSelectPressed => UxtDefaultHandTracker.OnLeftSelectPressed This
  | .OnLeftSelectReleased => UxtDefaultHandTracker.OnLeftSelectReleased This
  | .OnLeftGripPressed => UxtDefaultHandTracker.OnLeftGripPressed This
  | .OnLeftGripReleased => UxtDefaultHandTracker.OnLeftGripReleased This
  | .OnRightSelectPressed => UxtDefaultHandTracker.OnRightSelectPressed This
  | .OnRightSelectReleased => UxtDefaultHandTracker.OnRightSelectReleased This
  | .OnRightGripPressed => UxtDefaultHandTracker.OnRightGripPressed This
  | .OnRightGripReleased => UxtDefaultHandTracker.OnRightGripReleased This

/-- A finite sequence of handler calls, first call first. -/
def ExecuteAll (Calls : List EButtonHandler) (This : UUxtDefaultHandTrackerSubsystem) :
    UUxtDefaultHandTrackerSubsystem :=
  Calls.foldl (fun S H => H.Execute S) This

/-! ## Engine objects reached by the subsystem -/

/-- Identity of a `UObject` that a delegate or binding is bound to; the
subsystem is an engine subsystem, so there is one instance of it. -/
inductive UObjectRef where
  | DefaultHandTrackerSubsystem
  | Other (Index : Nat)
  deriving DecidableEq, Repr

/-- Identity of an `IModularFeature` object; `DefaultHandTracker` is the
address of the subsystem member of that name. -/
inductive IModularFeatureRef where
  | DefaultHandTracker
  | Other (Index : Nat)
  deriving DecidableEq, Repr

/-- Engine type `FName`, as far as modular feature names go. -/
inductive FName where
  | UxtHandTracker
  | Other (Index : Nat)
  deriving DecidableEq, Repr

/-- The feature name returned by `IUxtHandTracker::GetModularFeatureName()`. -/
def IUxtHandTracker.GetModularFeatureName : FName := FName.UxtHandTracker

/-- Interface of `UUxtXRSimulationSubsystem` as the tick uses it.  The class is
declared in `UxtXRSimulationSubsystem.h`, outside the two embedded files, so
its three member functions are parameters, typed as they are called:
`GetMotionControllerData(Hand, Data&, bool&, bool&)` maps the prior contents of
its three reference arguments to their contents after the call, and
`GetHeadPose(FQuat&, FVector&)`, called on two fresh locals, is the pair of
values it writes. -/
structure UUxtXRSimulationSubsystem where
  IsSimulationEnabled : Bool
  GetMotionControllerData :
    EControllerHand → FXRMotionControllerData → Bool → Bool → FXRMotionControllerData × Bool × Bool
  GetHeadPose : FQuat × FVector

/-- Engine type `UEnhancedInputLocalPlayerSubsystem`: the applied mapping
contexts with their priority. -/
structure UEnhancedInputLocalPlayerSubsystem where
  AppliedInputContexts : List (UInputMappingContextRef × Int) := []
  deriving DecidableEq, Repr

/-- Engine method `HasMappingContext`. -/
def UEnhancedInputLocalPlayerSubsystem.HasMappingContext
    (Sub : UEnhancedInputLocalPlayerSubsystem) (Context : UInputMappingContextRef) : Bool :=
  Sub.AppliedInputContexts.any (fun E => E.1 == Context)

/-- Engine method `AddMappingContext`: the context is entered with the given
priority, replacing an entry of the same context. -/
def UEnhancedInputLocalPlayerSubsystem.AddMappingContext
    (Sub : UEnhancedInputLocalPlayerSubsystem) (Context : UInputMappingContextRef) (Priority : Int) :
    UEnhancedInputLocalPlayerSubsystem :=
  { Sub with AppliedInputContexts :=
      Sub.AppliedInputContexts.filter (fun E => E.1 != Context) ++ [(Context, Priority)] }

/-- The four `UInputAction` members of the tracker that the handlers are bound to. -/
inductive EInputAction where
  | LeftSelect
  | LeftGrab
  | RightSelect
  | RightGrab
  deriving DecidableEq, Repr

/-- Engine enum `ETriggerEvent`. -/
inductive ETriggerEvent where
  | None
  | Triggered
  | Started
  | Ongoing
  | Canceled
  | Completed
  deriving DecidableEq, Repr

/-- One entry made by `UEnhancedInputComponent::BindAction`. -/
structure FEnhancedInputActionEventBinding where
  Action : EInputAction
  TriggerEvent : ETriggerEvent
  UserObject : UObjectRef
  Handler : EButtonHandler
  deriving DecidableEq, Repr

/-- Engine type `FInputAxisBinding`, with the object its delegate is bound to. -/
structure FInputAxisBinding where
  AxisName : Nat
  BoundObject : UObjectRef
  deriving DecidableEq, Repr

/-- Engine type `UInputComponent`; `bIsEnhancedInputComponent` says whether
`Cast<UEnhancedInputComponent>` succeeds on it. -/
structure UInputComponent where
  bIsEnhancedInputComponent : Bool := false
  ActionEventBindings : List FEnhancedInputActionEventBinding := []
  AxisBindings : List FInputAxisBinding := []
  deriving DecidableEq, Repr

/-- Engine method `UEnhancedInputComponent::BindAction`. -/
def UInputComponent.BindAction (C : UInputComponent) (Action : EInputAction)
    (TriggerEvent : ETriggerEvent) (UserObject : UObjectRef) (Handler : EButtonHandler) :
    UInputComponent :=
  { C with ActionEventBindings :=
      C.ActionEventBindings ++
        [{ Action := Action, TriggerEvent := TriggerEvent, UserObject := UserObject, Handler := Handler }] }

/-- Engine type `ULocalPlayer` with the two local-player subsystems the code
asks for; `none` is a null result of `GetSubsystem`. -/
structure ULocalPlayer where
  EnhancedInputSystem : Option UEnhancedInputLocalPlayerSubsystem := none
  XRSimulationSubsystem : Option UUxtXRSimulationSubsystem := none

/-- Engine type `APlayerController` as the subsystem sees it. -/
structure APlayerController where
  IsLocalController : Bool
  GetLocalPlayer : Option ULocalPlayer := none
  InputComponent : Option UInputComponent := none

/-- Engine type `AController`: either a player controller or some other
controller, on which `Cast<APlayerController>` gives null. -/
inductive AController where
  | PlayerController (PC : APlayerController)
  | Other

/-- Engine type `UWorld` as the tick sees it. -/
structure UWorld where
  GetFirstPlayerController : Option APlayerController := none

/-- Engine interface `IXRTrackingSystem`: `GetMotionControllerData(World, Hand,
Data&)` maps the prior contents of its reference argument to its contents
after the call. -/
structure IXRTrackingSystem where
  GetMotionControllerData :
    UWorld → EControllerHand → FXRMotionControllerData → FXRMotionControllerData

/-- Engine global `GEngine`, as far as the tick reads it; `none` is a null
`XRSystem`. -/
structure UEngine where
  XRSystem : Option IXRTrackingSystem := none

/-- One entry of a multicast delegate's invocation list. -/
structure FDelegateInstance where
  Handle : FDelegateHandle
  UserObject : UObjectRef
  deriving DecidableEq, Repr

/-- Engine globals written by the subsystem: the handle counter behind
`AddUObject`, the invocation list of `FWorldDelegates::OnWorldPreActorTick`,
the registry of `IModularFeatures` (a multiset of name and feature), and the
two statics of `UUxtFunctionLibrary`. -/
structure FEngineGlobals where
  GNextID : Nat := 0
  OnWorldPreActorTick : List FDelegateInstance := []
  ModularFeatures : List (FName × IModularFeatureRef) := []
  bUseInputSim : Bool := false
  SimulatedHeadPose : FTransform := FTransform.ofRotationTranslation ⟨0, 0, 0, 1⟩ ⟨0, 0, 0⟩
  deriving DecidableEq, Repr

/-- Engine call `FWorldDelegates::OnWorldPreActorTick.AddUObject(Object, ...)`:
a new handle is generated and the binding is appended. -/
def FEngineGlobals.AddUObject (G : FEngineGlobals) (Object : UObjectRef) :
    FEngineGlobals × FDelegateHandle :=
  let Handle : FDelegateHandle := { ID := G.GNextID + 1 }
  ({ G with GNextID := G.GNextID + 1,
            OnWorldPreActorTick := G.OnWorldPreActorTick ++ [{ Handle := Handle, UserObject := Object }] },
   Handle)

/-- Engine call `FWorldDelegates::OnWorldPreActorTick.Remove(Handle)`: the
binding with that handle is dropped; an invalid handle removes nothing. -/
def FEngineGlobals.Remove (G : FEngineGlobals) (Handle : FDelegateHandle) : FEngineGlobals :=
  if Handle.IsValid then
    { G with OnWorldPreActorTick := G.OnWorldPreActorTick.filter (fun B => B.Handle != Handle) }
  else G

/-- Engine call `IModularFeatures::Get().RegisterModularFeature(Type, Feature)`;
the registry is kept as a multiset, one entry per registration. -/
def FEngineGlobals.RegisterModularFeature (G : FEngineGlobals) (Type_ : FName)
    (Feature : IModularFeatureRef) : FEngineGlobals :=
  { G with ModularFeatures := G.ModularFeatures ++ [(Type_, Feature)] }

/-- Engine call `IModularFeatures::Get().UnregisterModularFeature(Type, Feature)`:
one matching entry is removed. -/
def FEngineGlobals.UnregisterModularFeature (G : FEngineGlobals) (Type_ : FName)
    (Feature : IModularFeatureRef) : FEngineGlobals :=
  { G with ModularFeatures := G.ModularFeatures.erase (Type_, Feature) }

/-- The subsystem object together with the engine globals it writes. -/
structure FProgramState where
  This : UUxtDefaultHandTrackerSubsystem := {}
  Globals : FEngineGlobals := {}
  deriving DecidableEq, Repr

/-! ## Registration (`UxtDefaultHandTrackerSubsystem.cpp` lines 43-112) -/

/-- The eight `BindAction` calls of `SetupForLocalPlayer` (lines 59-77). -/
def BindButtonActions (C : UInputComponent) : UInputComponent :=
  let C := C.BindAction .LeftSelect .Started .DefaultHandTrackerSubsystem .OnLeftSelectPressed
  let C := C.BindAction .LeftSelect .Completed .DefaultHandTrackerSubsystem .OnLeftSelectReleased
  let C := C.BindAction .LeftGrab .Started .DefaultHandTrackerSubsystem .OnLeftGripPressed
  let C := C.BindAction .LeftGrab .Completed .DefaultHandTrackerSubsystem .OnLeftGripReleased
  let C := C.BindAction .RightSelect .Started .DefaultHandTrackerSubsystem .OnRightSelectPressed
  let C := C.BindAction .RightSelect .Completed .DefaultHandTrackerSubsystem .OnRightSelectReleased
  let C := C.BindAction .RightGrab .Started .DefaultHandTrackerSubsystem .OnRightGripPressed
  let C := C.BindAction .RightGrab .Completed .DefaultHandTrackerSubsystem .OnRightGripReleased
  C

/-- `UUxtDefaultHandTrackerSubsystem::SetupForLocalPlayer`.  The player
controller is reached through a pointer, so its state after the call is
returned next to the program state. -/
def SetupForLocalPlayer (S : FProgramState) (NewPlayer : APlayerController) :
    FProgramState × APlayerController :=
  if NewPlayer.IsLocalController then
    -- lines 47-52; `ULocalPlayer::GetSubsystem` of a null local player is null
    let LocalPlayer : Option ULocalPlayer :=
      match NewPlayer.GetLocalPlayer with
      | some LP =>
        match LP.EnhancedInputSystem with
        | some EnhancedInputSystem =>
          if !EnhancedInputSystem.HasMappingContext S.This.InputMappingContext then
            let Added := EnhancedInputSystem.AddMappingContext S.This.InputMappingContext 0
            some { LP with EnhancedInputSystem := some Added }
          else some LP
        | none => some LP
      | none => none
    -- lines 54-79
    let InputComponent : Option UInputComponent :=
      match NewPlayer.InputComponent with
      | some IC => if IC.bIsEnhancedInputComponent then some (BindButtonActions IC) else some IC
      | none => none
    -- line 84
    let Added := S.Globals.AddUObject .DefaultHandTrackerSubsystem
    let This := { S.This with TickDelegateHandle := Added.2 }
    -- line 86
    let Globals :=
      Added.1.RegisterModularFeature IUxtHandTracker.GetModularFeatureName .DefaultHandTracker
    ({ This := This, Globals := Globals },
     { NewPlayer with GetLocalPlayer := LocalPlayer, InputComponent := InputComponent })
  else (S, NewPlayer)

/-- `UUxtDefaultHandTrackerSubsystem::OnGameModePostLogin`. -/
def OnGameModePostLogin (S : FProgramState) (NewPlayer : APlayerController) :
    FProgramState × APlayerController :=
  SetupForLocalPlayer S NewPlayer

/-- `UUxtDefaultHandTrackerSubsystem::OnGameModeLogout`. -/
def OnGameModeLogout (S : FProgramState) (Exiting : AController) : FProgramState × AController :=
  match Exiting with
  | .PlayerController PlayerController =>
    if PlayerController.IsLocalController then
      -- line 101
      let Globals :=
        S.Globals.UnregisterModularFeature IUxtHandTracker.GetModularFeatureName .DefaultHandTracker
      -- line 103
      let Globals := Globals.Remove S.This.TickDelegateHandle
      -- lines 105-109
      let InputComponent : Option UInputComponent :=
        match PlayerController.InputComponent with
        | some IC =>
          let Kept := IC.AxisBindings.filter
            (fun Binding => Binding.BoundObject != .DefaultHandTrackerSubsystem)
          some { IC with AxisBindings := Kept }
        | none => none
      ({ S with Globals := Globals },
       .PlayerController { PlayerController with InputComponent := InputComponent })
    else (S, Exiting)
  | .Other => (S, Exiting)

/-! ## Per-frame update (`UxtDefaultHandTrackerSubsystem.cpp` lines 114-167) -/

/-- The lookup of the simulation subsystem at the head of
`OnWorldPreActorTick` (lines 116-123); `none` is the null pointer. -/
def FindXRSimulationSubsystem (World : UWorld) : Option UUxtXRSimulationSubsystem :=
  match World.GetFirstPlayerController with
  | some PlayerController =>
    match PlayerController.GetLocalPlayer with
    | some LocalPlayer => LocalPlayer.XRSimulationSubsystem
    | none => none
  | none => none

/-- `UUxtDefaultHandTrackerSubsystem::OnWorldPreActorTick`; `TickType` and
`DeltaTime` are not read by the body. -/
def OnWorldPreActorTick (S : FProgramState) (GEngine : UEngine) (World : UWorld) : FProgramState :=
  -- lines 116-123
  let XRSimulationSubsystem := FindXRSimulationSubsystem World
  let T := S.This.DefaultHandTracker
  -- line 125
  match XRSimulationSubsystem.filter (fun Sub => Sub.IsSimulationEnabled) with
  | some Sim =>
    -- lines 129-134
    let L := Sim.GetMotionControllerData .Left
      T.ControllerData_Left T.bIsSelectPressed_Left T.bIsGrabbing_Left
    let T := { T with ControllerData_Left := L.1, bIsSelectPressed_Left := L.2.1,
                      bIsGrabbing_Left := L.2.2 }
    let R := Sim.GetMotionControllerData .Right
      T.ControllerData_Right T.bIsSelectPressed_Right T.bIsGrabbing_Right
    let T := { T with ControllerData_Right := R.1, bIsSelectPressed_Right := R.2.1,
                      bIsGrabbing_Right := R.2.2 }
    -- lines 137-141
    let HeadPose := Sim.GetHeadPose
    { This := { S.This with DefaultHandTracker := T },
      Globals := { S.Globals with
        bUseInputSim := true,
        SimulatedHeadPose := FTransform.ofRotationTranslation HeadPose.1 HeadPose.2 } }
  | none =>
    -- lines 146-162
    let T :=
      match GEngine.XRSystem with
      | some XRSystem =>
        let DataL := XRSystem.GetMotionControllerData World .Left T.ControllerData_Left
        let T := { T with ControllerData_Left := DataL }
        let DataR := XRSystem.GetMotionControllerData World .Right T.ControllerData_Right
        let T := { T with ControllerData_Right := DataR }
        let T :=
          if T.ControllerData_Left.TrackingStatus = ETrackingStatus.NotTracked then
            { T with bIsSelectPressed_Left := false, bIsGrabbing_Left := false }
          else T
        let T :=
          if T.ControllerData_Right.TrackingStatus = ETrackingStatus.NotTracked then
            { T with bIsSelectPressed_Right := false, bIsGrabbing_Right := false }
          else T
        T
      | none => T
    -- line 165
    { This := { S.This with DefaultHandTracker := T },
      Globals := { S.Globals with bUseInputSim := false } }

/-! ## Vocabulary of the properties -/

/-- Simulation is enabled for the tick: a simulation subsystem is found and its
`IsSimulationEnabled` returns true. -/
def SimulationEnabled (World : UWorld) : Bool :=
  match FindXRSimulationSubsystem World with
  | some Sim => Sim.IsSimulationEnabled
  | none => false

/-- The two buttons of a hand. -/
inductive EButton where
  | Select
  | Grip
  deriving DecidableEq, Repr

/-- The flag of the tracker named by a hand and a button; hands other than
`Left` and `Right` have no flag. -/
def FUxtDefaultHandTracker.Flag (T : FUxtDefaultHandTracker) (Hand : EControllerHand)
    (Button : EButton) : Bool :=
  match Hand, Button with
  | .Left, .Select => T.bIsSelectPressed_Left
  | .Left, .Grip => T.bIsGrabbing_Left
  | .Right, .Select => T.bIsSelectPressed_Right
  | .Right, .Grip => T.bIsGrabbing_Right
  | .AnyHand, _ => false

/-- The cached controller data of a hand. -/
def FUxtDefaultHandTracker.ControllerData (T : FUxtDefaultHandTracker) (Hand : EControllerHand) :
    FXRMotionControllerData :=
  match Hand with
  | .Right => T.ControllerData_Right
  | _ => T.ControllerData_Left

/-- The hand a handler is named after. -/
def EButtonHandler.Hand : EButtonHandler → EControllerHand
  | .OnLeftSelectPressed | .OnLeftSelectReleased | .OnLeftGripPressed | .OnLeftGripReleased => .Left
  | _ => .Right

/-- The button a handler is named after. -/
def EButtonHandler.Button : EButtonHandler → EButton
  | .OnLeftSelectPressed | .OnLeftSelectReleased | .OnRightSelectPressed
  | .OnRightSelectReleased => .Select
  | _ => .Grip

/-- Whether a handler is a press handler (as opposed to a release handler). -/
def EButtonHandler.IsPress : EButtonHandler → Bool
  | .OnLeftSelectPressed | .OnLeftGripPressed | .OnRightSelectPressed | .OnRightGripPressed => true
  | _ => false

/-- The last event of a call sequence for a hand and button: `some true` for a
press, `some false` for a release, `none` when the sequence has no such event. -/
def LastEvent (Calls : List EButtonHandler) (Hand : EControllerHand) (Button : EButton) :
    Option Bool :=
  ((Calls.filter (fun H => H.Hand = Hand ∧ H.Button = Button)).getLast?).map (fun H => H.IsPress)

/-- The program state with the four flags replaced and everything else kept. -/
def FProgramState.WithFlags (S : FProgramState) (SelectLeft GrabLeft SelectRight GrabRight : Bool) :
    FProgramState :=
  { S with This := { S.This with DefaultHandTracker := { S.This.DefaultHandTracker with
      bIsSelectPressed_Left := SelectLeft, bIsGrabbing_Left := GrabLeft,
      bIsSelectPressed_Right := SelectRight, bIsGrabbing_Right := GrabRight } } }

/-- What an XR system reports for a hand on a tick: the contents of the
tracker's controller data of that hand after `GetMotionControllerData`. -/
def ReportedData (XRSystem : IXRTrackingSystem) (World : UWorld) (T : FUxtDefaultHandTracker)
    (Hand : EControllerHand) : FXRMotionControllerData :=
  XRSystem.GetMotionControllerData World Hand (T.ControllerData Hand)

/-- The effect of the two registrations of `SetupForLocalPlayer` (lines 84-86)
between a state before and a state after: one tick callback of the subsystem
was appended under the handle now held in `TickDelegateHandle`, the tracker was
entered once more in the feature registry, and the tracker is as before. -/
def RegisteredBetween (Before After : FProgramState) : Prop :=
  After.This.TickDelegateHandle.IsValid = true ∧
  After.Globals.OnWorldPreActorTick = Before.Globals.OnWorldPreActorTick ++
    [{ Handle := After.This.TickDelegateHandle, UserObject := UObjectRef.DefaultHandTrackerSubsystem }] ∧
  After.Globals.ModularFeatures = Before.Globals.ModularFeatures ++
    [(IUxtHandTracker.GetModularFeatureName, IModularFeatureRef.DefaultHandTracker)] ∧
  After.This.DefaultHandTracker = Before.This.DefaultHandTracker

instance RegisteredBetween.decidable (Before After : FProgramState) :
    Decidable (RegisteredBetween Before After) := by
  unfold RegisteredBetween
  infer_instance

/-- A run of `OnGameModePostLogin` events, one per player controller in order;
the controllers are returned as the events leave them. -/
def LoginAll (S : FProgramState) : List APlayerController → FProgramState × List APlayerController
  | [] => (S, [])
  | P :: Ps =>
    let R := OnGameModePostLogin S P
    let Rest := LoginAll R.1 Ps
    (Rest.1, R.2 :: Rest.2)

/-- A run of `OnGameModeLogout` events, one per player controller in order. -/
def LogoutAll (S : FProgramState) : List APlayerController → FProgramState
  | [] => S
  | P :: Ps => LogoutAll (OnGameModeLogout S (AController.PlayerController P)).1 Ps

/-- Logins for all the controllers followed by logouts for those controllers. -/
def LoginThenLogoutAll (S : FProgramState) (Players : List APlayerController) : FProgramState :=
  LogoutAll (LoginAll S Players).1 (LoginAll S Players).2

/-- Number of callbacks of the subsystem in `FWorldDelegates::OnWorldPreActorTick`. -/
def TickCallbackCount (S : FProgramState) : Nat :=
  S.Globals.OnWorldPreActorTick.countP
    (fun B => B.UserObject == UObjectRef.DefaultHandTrackerSubsystem)

/-- Number of entries of the default hand tracker in the feature registry. -/
def TrackerFeatureCount (S : FProgramState) : Nat :=
  S.Globals.ModularFeatures.count
    (IUxtHandTracker.GetModularFeatureName, IModularFeatureRef.DefaultHandTracker)

/-- Every handle in the tick delegate list was generated by the counter. -/
def HandlesGenerated (G : FEngineGlobals) : Prop :=
  ∀ B ∈ G.OnWorldPreActorTick, B.Handle.ID ≤ G.GNextID

instance HandlesGenerated.decidable (G : FEngineGlobals) : Decidable (HandlesGenerated G) := by
  unfold HandlesGenerated
  infer_instance

/-- A state with the same subsystem and engine globals but nothing yet
registered on the tick delegate or in the feature registry. -/
def FProgramState.Unregistered (S : FProgramState) : FProgramState :=
  { S with Globals := { S.Globals with OnWorldPreActorTick := [], ModularFeatures := [] } }

/-- A player controller made local. -/
def APlayerController.AsLocal (P : APlayerController) : APlayerController :=
  { P with IsLocalController := true }

/-! ## Sample environments -/

/-- A world without a player controller, hence without simulation. -/
def SampleWorldNoPlayer : UWorld := {}

/-- A device that reports both hands as not tracked. -/
def SampleXRSystemLost : IXRTrackingSystem :=
  { GetMotionControllerData := fun _ Hand Data =>
      { Data with bValid := false, HandIndex := Hand, TrackingStatus := ETrackingStatus.NotTracked } }

/-- A program state in which all four flags are set. -/
def SampleStateAllPressed : FProgramState :=
  FProgramState.WithFlags {} true true true true

/-- What `SampleSimulation` reports for a hand: untracked data with select
pressed and nothing grabbed. -/
def SampleSimulationReport (Hand : EControllerHand) : FXRMotionControllerData × Bool × Bool :=
  ({ HandIndex := Hand, TrackingStatus := ETrackingStatus.NotTracked }, true, false)

/-- An enabled simulation subsystem that writes `SampleSimulationReport`. -/
def SampleSimulation : UUxtXRSimulationSubsystem :=
  { IsSimulationEnabled := true,
    GetMotionControllerData := fun Hand _ _ _ => SampleSimulationReport Hand,
    GetHeadPose := (⟨0, 0, 0, 1⟩, ⟨0, 0, 170⟩) }

/-- A world whose first player controller is local and has `SampleSimulation`. -/
def SampleWorldSimulated : UWorld :=
  { GetFirstPlayerController := some
      { IsLocalController := true,
        GetLocalPlayer := some { XRSimulationSubsystem := some SampleSimulation } } }

/-- A device that has lost the left hand and tracks the right hand. -/
def SampleXRSystemLeftLost : IXRTrackingSystem :=
  { GetMotionControllerData := fun _ Hand Data =>
      { Data with HandIndex := Hand,
                  TrackingStatus := if Hand = EControllerHand.Left then ETrackingStatus.NotTracked
                                    else ETrackingStatus.Tracked } }

/-- A player controller that is not local, with an enhanced input component
carrying an axis binding of the subsystem. -/
def SampleRemotePlayer : APlayerController :=
  { IsLocalController := false,
    GetLocalPlayer := some { EnhancedInputSystem := some {} },
    InputComponent := some
      { bIsEnhancedInputComponent := true,
        AxisBindings := [{ AxisName := 1, BoundObject := UObjectRef.DefaultHandTrackerSubsystem }] } }

/-- A local player controller without enhanced-input subsystem, with an
enhanced input component. -/
def SampleLocalPlayerNoInputSystem : APlayerController :=
  { IsLocalController := true,
    GetLocalPlayer := some {},
    InputComponent := some { bIsEnhancedInputComponent := true } }

/-- A local player controller with an enhanced-input subsystem and no input
component. -/
def SampleLocalPlayerNoComponent : APlayerController :=
  { IsLocalController := true,
    GetLocalPlayer := some { EnhancedInputSystem := some {} },
    InputComponent := none }

/-- A local player controller with an enhanced-input subsystem and an enhanced
input component. -/
def SampleLocalPlayer : APlayerController :=
  { IsLocalController := true,
    GetLocalPlayer := some { EnhancedInputSystem := some {} },
    InputComponent := some { bIsEnhancedInputComponent := true } }

/-- Every hand whose cached data says `NotTracked` has both flags clear. -/
def LostHandsHaveClearFlags (T : FUxtDefaultHandTracker) : Prop :=
  (T.ControllerData_Left.TrackingStatus = ETrackingStatus.NotTracked →
      T.bIsSelectPressed_Left = false ∧ T.bIsGrabbing_Left = false) ∧
  (T.ControllerData_Right.TrackingStatus = ETrackingStatus.NotTracked →
      T.bIsSelectPressed_Right = false ∧ T.bIsGrabbing_Right = false)

instance LostHandsHaveClearFlags.decidable (T : FUxtDefaultHandTracker) :
    Decidable (LostHandsHaveClearFlags T) := by
  unfold LostHandsHaveClearFlags
  infer_instance

/-! ## Lemmas on the tick -/

theorem tick_simulated (S : FProgramState) (GEngine : UEngine) (World : UWorld)
    (Sim : UUxtXRSimulationSubsystem) (hFound : FindXRSimulationSubsystem World = some Sim)
    (hEnabled : Sim.IsSimulationEnabled = true) :
    OnWorldPreActorTick S GEngine World =
      { This := { S.This with DefaultHandTracker :=
          { ControllerData_Left := (Sim.GetMotionControllerData .Left
              S.This.DefaultHandTracker.ControllerData_Left
              S.This.DefaultHandTracker.bIsSelectPressed_Left
              S.This.DefaultHandTracker.bIsGrabbing_Left).1,
            ControllerData_Right := (Sim.GetMotionControllerData .Right
              S.This.DefaultHandTracker.ControllerData_Right
              S.This.DefaultHandTracker.bIsSelectPressed_Right
              S.This.DefaultHandTracker.bIsGrabbing_Right).1,
            bIsGrabbing_Left := (Sim.GetMotionControllerData .Left
              S.This.DefaultHandTracker.ControllerData_Left
              S.This.DefaultHandTracker.bIsSelectPressed_Left
              S.This.DefaultHandTracker.bIsGrabbing_Left).2.2,
            bIsSelectPressed_Left := (Sim.GetMotionControllerData .Left
              S.This.DefaultHandTracker.ControllerData_Left
              S.This.DefaultHandTracker.bIsSelectPressed_Left
              S.This.DefaultHandTracker.bIsGrabbing_Left).2.1,
            bIsGrabbing_Right := (Sim.GetMotionControllerData .Right
              S.This.DefaultHandTracker.ControllerData_Right
              S.This.DefaultHandTracker.bIsSelectPressed_Right
              S.This.DefaultHandTracker.bIsGrabbing_Right).2.2,
            bIsSelectPressed_Right := (Sim.GetMotionControllerData .Right
              S.This.DefaultHandTracker.ControllerData_Right
              S.This.DefaultHandTracker.bIsSelectPressed_Right
              S.This.DefaultHandTracker.bIsGrabbing_Right).2.1 } },
        Globals := { S.Globals with
          bUseInputSim := true,
          SimulatedHeadPose := FTransform.ofRotationTranslation Sim.GetHeadPose.1 Sim.GetHeadPose.2 } } := by
  simp [OnWorldPreActorTick, hFound, Option.filter, hEnabled]

theorem filter_enabled_eq_none (World : UWorld) (hSim : SimulationEnabled World = false) :
    (FindXRSimulationSubsystem World).filter (fun Sub => Sub.IsSimulationEnabled) = none := by
  unfold SimulationEnabled at hSim
  cases h : FindXRSimulationSubsystem World with
  | none => rfl
  | some Sim =>
    rw [h] at hSim
    simp only at hSim
    simp [Option.filter, hSim]

theorem tick_device (S : FProgramState) (GEngine : UEngine) (World : UWorld)
    (XRSystem : IXRTrackingSystem) (hSim : SimulationEnabled World = false)
    (hXR : GEngine.XRSystem = some XRSystem) :
    (OnWorldPreActorTick S GEngine World).This.DefaultHandTracker =
      { ControllerData_Left := ReportedData XRSystem World S.This.DefaultHandTracker .Left,
        ControllerData_Right := ReportedData XRSystem World S.This.DefaultHandTracker .Right,
        bIsGrabbing_Left :=
          if (ReportedData XRSystem World S.This.DefaultHandTracker .Left).TrackingStatus
              = ETrackingStatus.NotTracked then false
          else S.This.DefaultHandTracker.bIsGrabbing_Left,
        bIsSelectPressed_Left :=
          if (ReportedData XRSystem World S.This.DefaultHandTracker .Left).TrackingStatus
              = ETrackingStatus.NotTracked then false
          else S.This.DefaultHandTracker.bIsSelectPressed_Left,
        bIsGrabbing_Right :=
          if (ReportedData XRSystem World S.This.DefaultHandTracker .Right).TrackingStatus
              = ETrackingStatus.NotTracked then false
          else S.This.DefaultHandTracker.bIsGrabbing_Right,
        bIsSelectPressed_Right :=
          if (ReportedData XRSystem World S.This.DefaultHandTracker .Right).TrackingStatus
              = ETrackingStatus.NotTracked then false
          else S.This.DefaultHandTracker.bIsSelectPressed_Right } := by
  have hNone := filter_enabled_eq_none World hSim
  simp only [OnWorldPreActorTick, hNone, hXR, ReportedData, FUxtDefaultHandTracker.ControllerData]
  split_ifs <;> rfl

theorem tick_no_device (S : FProgramState) (GEngine : UEngine) (World : UWorld)
    (hSim : SimulationEnabled World = false) (hXR : GEngine.XRSystem = none) :
    OnWorldPreActorTick S GEngine World =
      { S with Globals := { S.Globals with bUseInputSim := false } } := by
  have hNone := filter_enabled_eq_none World hSim
  simp only [OnWorldPreActorTick, hNone, hXR]

/-! ## Properties of the tick -/

/-- C1: on a tick with simulation not enabled and an XR system present, a
hand (Left or Right) that the XR system reports as `NotTracked` on this tick
has `bIsSelectPressed` and `bIsGrabbing` false after the tick, whatever the
prior state; the cached data of the hand is the reported data. -/
theorem device_tick_clears_flags_of_lost_hand (S : FProgramState) (GEngine : UEngine)
    (World : UWorld) (XRSystem : IXRTrackingSystem) (Hand : EControllerHand)
    (hSim : SimulationEnabled World = false) (hXR : GEngine.XRSystem = some XRSystem)
    (hHand : Hand = EControllerHand.Left ∨ Hand = EControllerHand.Right)
    (hLost : (ReportedData XRSystem World S.This.DefaultHandTracker Hand).TrackingStatus
      = ETrackingStatus.NotTracked) :
    (OnWorldPreActorTick S GEngine World).This.DefaultHandTracker.Flag Hand EButton.Select = false ∧
    (OnWorldPreActorTick S GEngine World).This.DefaultHandTracker.Flag Hand EButton.Grip = false ∧
    (OnWorldPreActorTick S GEngine World).This.DefaultHandTracker.ControllerData Hand
      = ReportedData XRSystem World S.This.DefaultHandTracker Hand := by
  rw [tick_device S GEngine World XRSystem hSim hXR]
  rcases hHand with h | h <;> subst h <;>
    simp [FUxtDefaultHandTracker.Flag, FUxtDefaultHandTracker.ControllerData, hLost]

theorem device_tick_clears_flags_of_lost_hand_witness :
    SimulationEnabled SampleWorldNoPlayer = false ∧
    SampleStateAllPressed.This.DefaultHandTracker.Flag EControllerHand.Left EButton.Select = true ∧
    SampleStateAllPressed.This.DefaultHandTracker.Flag EControllerHand.Left EButton.Grip = true ∧
    ((OnWorldPreActorTick SampleStateAllPressed { XRSystem := some SampleXRSystemLost }
        SampleWorldNoPlayer).This.DefaultHandTracker.Flag EControllerHand.Left EButton.Select = false ∧
     (OnWorldPreActorTick SampleStateAllPressed { XRSystem := some SampleXRSystemLost }
        SampleWorldNoPlayer).This.DefaultHandTracker.Flag EControllerHand.Left EButton.Grip = false ∧
     (OnWorldPreActorTick SampleStateAllPressed { XRSystem := some SampleXRSystemLost }
        SampleWorldNoPlayer).This.DefaultHandTracker.ControllerData EControllerHand.Left
      = ReportedData SampleXRSystemLost SampleWorldNoPlayer
          SampleStateAllPressed.This.DefaultHandTracker EControllerHand.Left) :=
  ⟨rfl, rfl, rfl,
   device_tick_clears_flags_of_lost_hand SampleStateAllPressed { XRSystem := some SampleXRSystemLost }
     SampleWorldNoPlayer SampleXRSystemLost EControllerHand.Left rfl rfl (Or.inl rfl) rfl⟩

/-- C8: on a tick with simulation not enabled and an XR system present, a
hand (Left or Right) whose reported tracking status differs from `NotTracked`
keeps `bIsSelectPressed` and `bIsGrabbing` as they were before the tick,
whatever is reported for the other hand. -/
theorem device_tick_keeps_flags_of_tracked_hand (S : FProgramState) (GEngine : UEngine)
    (World : UWorld) (XRSystem : IXRTrackingSystem) (Hand : EControllerHand)
    (hSim : SimulationEnabled World = false) (hXR : GEngine.XRSystem = some XRSystem)
    (hHand : Hand = EControllerHand.Left ∨ Hand = EControllerHand.Right)
    (hTracked : (ReportedData XRSystem World S.This.DefaultHandTracker Hand).TrackingStatus
      ≠ ETrackingStatus.NotTracked) :
    (OnWorldPreActorTick S GEngine World).This.DefaultHandTracker.Flag Hand EButton.Select
      = S.This.DefaultHandTracker.Flag Hand EButton.Select ∧
    (OnWorldPreActorTick S GEngine World).This.DefaultHandTracker.Flag Hand EButton.Grip
      = S.This.DefaultHandTracker.Flag Hand EButton.Grip := by
  rw [tick_device S GEngine World XRSystem hSim hXR]
  rcases hHand with h | h <;> subst h <;>
    simp [FUxtDefaultHandTracker.Flag, hTracked]

theorem device_tick_keeps_flags_of_tracked_hand_witness :
    SimulationEnabled SampleWorldNoPlayer = false ∧
    (ReportedData SampleXRSystemLeftLost SampleWorldNoPlayer
        SampleStateAllPressed.This.DefaultHandTracker EControllerHand.Left).TrackingStatus
      = ETrackingStatus.NotTracked ∧
    (ReportedData SampleXRSystemLeftLost SampleWorldNoPlayer
        SampleStateAllPressed.This.DefaultHandTracker EControllerHand.Right).TrackingStatus
      ≠ ETrackingStatus.NotTracked ∧
    ((OnWorldPreActorTick SampleStateAllPressed { XRSystem := some SampleXRSystemLeftLost }
        SampleWorldNoPlayer).This.DefaultHandTracker.Flag EControllerHand.Right EButton.Select
      = SampleStateAllPressed.This.DefaultHandTracker.Flag EControllerHand.Right EButton.Select ∧
     (OnWorldPreActorTick SampleStateAllPressed { XRSystem := some SampleXRSystemLeftLost }
        SampleWorldNoPlayer).This.DefaultHandTracker.Flag EControllerHand.Right EButton.Grip
      = SampleStateAllPressed.This.DefaultHandTracker.Flag EControllerHand.Right EButton.Grip) :=
  ⟨rfl, rfl, by decide,
   device_tick_keeps_flags_of_tracked_hand SampleStateAllPressed
     { XRSystem := some SampleXRSystemLeftLost } SampleWorldNoPlayer SampleXRSystemLeftLost
     EControllerHand.Right rfl rfl (Or.inr rfl) (by decide)⟩

/-- C10: a tick with simulation not enabled and a null `GEngine->XRSystem`
leaves the whole tracker (both controller data and all four flags, even when
the cached status is `NotTracked`) and the rest of the subsystem as they were;
of the engine globals only `bUseInputSim` is written, and it becomes false. -/
theorem tick_without_device_keeps_cache (S : FProgramState) (GEngine : UEngine) (World : UWorld)
    (hSim : SimulationEnabled World = false) (hXR : GEngine.XRSystem = none) :
    (OnWorldPreActorTick S GEngine World).This = S.This ∧
    (OnWorldPreActorTick S GEngine World).Globals = { S.Globals with bUseInputSim := false } ∧
    (OnWorldPreActorTick S GEngine World).Globals.bUseInputSim = false := by
  rw [tick_no_device S GEngine World hSim hXR]
  exact ⟨rfl, rfl, rfl⟩

theorem tick_without_device_keeps_cache_witness :
    SimulationEnabled SampleWorldNoPlayer = false ∧
    SampleStateAllPressed.This.DefaultHandTracker.ControllerData_Left.TrackingStatus
      = ETrackingStatus.NotTracked ∧
    SampleStateAllPressed.This.DefaultHandTracker.bIsSelectPressed_Left = true ∧
    ((OnWorldPreActorTick SampleStateAllPressed {} SampleWorldNoPlayer).This
        = SampleStateAllPressed.This ∧
     (OnWorldPreActorTick SampleStateAllPressed {} SampleWorldNoPlayer).Globals
        = { SampleStateAllPressed.Globals with bUseInputSim := false } ∧
     (OnWorldPreActorTick SampleStateAllPressed {} SampleWorldNoPlayer).Globals.bUseInputSim = false) :=
  ⟨rfl, rfl, rfl, tick_without_device_keeps_cache SampleStateAllPressed {} SampleWorldNoPlayer rfl rfl⟩

/-- C3, as stated, fails: without an XR system the tick keeps a cached
`NotTracked` hand with its flags set, and in simulation mode the tick stores a
`NotTracked` hand together with a set select flag when the simulation reports
that. -/
theorem tick_leaves_flags_of_lost_hand_set :
    ¬ LostHandsHaveClearFlags
        (OnWorldPreActorTick SampleStateAllPressed {} SampleWorldNoPlayer).This.DefaultHandTracker ∧
    ¬ LostHandsHaveClearFlags
        (OnWorldPreActorTick {} { XRSystem := some SampleXRSystemLost }
          SampleWorldSimulated).This.DefaultHandTracker := by
  constructor
  · intro h
    have h1 := h.1 rfl
    exact absurd h1.1 (by decide)
  · intro h
    have h1 := h.1 rfl
    exact absurd h1.1 (by decide)

/-- C3, amended: after a tick with simulation not enabled and an XR system
present, each hand whose cached `ControllerData` has `TrackingStatus`
`NotTracked` has `bIsSelectPressed` and `bIsGrabbing` false. -/
theorem device_tick_lost_hands_have_clear_flags (S : FProgramState) (GEngine : UEngine)
    (World : UWorld) (XRSystem : IXRTrackingSystem)
    (hSim : SimulationEnabled World = false) (hXR : GEngine.XRSystem = some XRSystem) :
    LostHandsHaveClearFlags (OnWorldPreActorTick S GEngine World).This.DefaultHandTracker := by
  rw [tick_device S GEngine World XRSystem hSim hXR]
  constructor
  · intro h
    simp only at h
    simp [h]
  · intro h
    simp only at h
    simp [h]

theorem device_tick_lost_hands_have_clear_flags_witness :
    SimulationEnabled SampleWorldNoPlayer = false ∧
    SampleStateAllPressed.This.DefaultHandTracker.bIsSelectPressed_Right = true ∧
    (OnWorldPreActorTick SampleStateAllPressed { XRSystem := some SampleXRSystemLost }
      SampleWorldNoPlayer).This.DefaultHandTracker.ControllerData_Right.TrackingStatus
      = ETrackingStatus.NotTracked ∧
    LostHandsHaveClearFlags
      (OnWorldPreActorTick SampleStateAllPressed { XRSystem := some SampleXRSystemLost }
        SampleWorldNoPlayer).This.DefaultHandTracker :=
  ⟨rfl, rfl, rfl,
   device_tick_lost_hands_have_clear_flags SampleStateAllPressed
     { XRSystem := some SampleXRSystemLost } SampleWorldNoPlayer SampleXRSystemLost rfl rfl⟩

/-- C6: after every tick `bUseInputSim` is true exactly when a simulation
subsystem was found for the first player controller's local player and its
`IsSimulationEnabled` returned true; in that case `SimulatedHeadPose` is the
transform built from the rotation and position of `GetHeadPose`, and otherwise
`SimulatedHeadPose` is what it was before the tick. -/
theorem head_pose_override_follows_simulation (S : FProgramState) (GEngine : UEngine)
    (World : UWorld) :
    ((OnWorldPreActorTick S GEngine World).Globals.bUseInputSim = true ↔
      ∃ Sim, FindXRSimulationSubsystem World = some Sim ∧ Sim.IsSimulationEnabled = true) ∧
    (OnWorldPreActorTick S GEngine World).Globals.SimulatedHeadPose =
      (match FindXRSimulationSubsystem World with
       | some Sim =>
         if Sim.IsSimulationEnabled then
           FTransform.ofRotationTranslation Sim.GetHeadPose.1 Sim.GetHeadPose.2
         else S.Globals.SimulatedHeadPose
       | none => S.Globals.SimulatedHeadPose) := by
  cases hFound : FindXRSimulationSubsystem World with
  | none =>
    have hSim : SimulationEnabled World = false := by simp [SimulationEnabled, hFound]
    have hNone := filter_enabled_eq_none World hSim
    rw [hFound] at hNone
    simp [OnWorldPreActorTick, hFound, hNone]
  | some Sim =>
    cases hEnabled : Sim.IsSimulationEnabled with
    | true =>
      rw [tick_simulated S GEngine World Sim hFound hEnabled]
      simp [hEnabled]
    | false =>
      have hSim : SimulationEnabled World = false := by simp [SimulationEnabled, hFound, hEnabled]
      have hNone := filter_enabled_eq_none World hSim
      rw [hFound] at hNone
      simp [OnWorldPreActorTick, hFound, hNone, hEnabled]

theorem flag_execute (H : EButtonHandler) (This : UUxtDefaultHandTrackerSubsystem)
    (Hand : EControllerHand) (Button : EButton) :
    (H.Execute This).DefaultHandTracker.Flag Hand Button =
      if H.Hand = Hand ∧ H.Button = Button then H.IsPress
      else This.DefaultHandTracker.Flag Hand Button := by
  cases H <;> cases Hand <;> cases Button <;> rfl

theorem executeAll_append (Calls : List EButtonHandler) (H : EButtonHandler)
    (This : UUxtDefaultHandTrackerSubsystem) :
    ExecuteAll (Calls ++ [H]) This = H.Execute (ExecuteAll Calls This) := by
  simp [ExecuteAll, List.foldl_append]

theorem lastEvent_append (Calls : List EButtonHandler) (H : EButtonHandler)
    (Hand : EControllerHand) (Button : EButton) :
    LastEvent (Calls ++ [H]) Hand Button =
      if H.Hand = Hand ∧ H.Button = Button then some H.IsPress
      else LastEvent Calls Hand Button := by
  unfold LastEvent
  by_cases h : H.Hand = Hand ∧ H.Button = Button
  · simp [List.filter_append, List.filter_cons, h]
  · simp [List.filter_append, List.filter_cons, h]

theorem flag_executeAll (Calls : List EButtonHandler) (This : UUxtDefaultHandTrackerSubsystem)
    (Hand : EControllerHand) (Button : EButton) :
    (ExecuteAll Calls This).DefaultHandTracker.Flag Hand Button =
      (LastEvent Calls Hand Button).getD (This.DefaultHandTracker.Flag Hand Button) := by
  induction Calls using List.reverseRecOn with
  | nil => rfl
  | append_singleton Calls H ih =>
    rw [executeAll_append, flag_execute, lastEvent_append, ih]
    split_ifs <;> rfl

/-- C2: after any finite sequence of calls to the eight button handlers from
any initial state, each of the four flags is true if the last call in the
sequence for its hand and button was a press, false if it was a release, and
equal to its initial value if the sequence has no call for that hand and
button. -/
theorem flags_mirror_last_button_event (Calls : List EButtonHandler)
    (This : UUxtDefaultHandTrackerSubsystem) :
    (ExecuteAll Calls This).DefaultHandTracker.bIsSelectPressed_Left =
      (match LastEvent Calls EControllerHand.Left EButton.Select with
       | some Pressed => Pressed
       | none => This.DefaultHandTracker.bIsSelectPressed_Left) ∧
    (ExecuteAll Calls This).DefaultHandTracker.bIsGrabbing_Left =
      (match LastEvent Calls EControllerHand.Left EButton.Grip with
       | some Pressed => Pressed
       | none => This.DefaultHandTracker.bIsGrabbing_Left) ∧
    (ExecuteAll Calls This).DefaultHandTracker.bIsSelectPressed_Right =
      (match LastEvent Calls EControllerHand.Right EButton.Select with
       | some Pressed => Pressed
       | none => This.DefaultHandTracker.bIsSelectPressed_Right) ∧
    (ExecuteAll Calls This).DefaultHandTracker.bIsGrabbing_Right =
      (match LastEvent Calls EControllerHand.Right EButton.Grip with
       | some Pressed => Pressed
       | none => This.DefaultHandTracker.bIsGrabbing_Right) := by
  have hLS := flag_executeAll Calls This EControllerHand.Left EButton.Select
  have hLG := flag_executeAll Calls This EControllerHand.Left EButton.Grip
  have hRS := flag_executeAll Calls This EControllerHand.Right EButton.Select
  have hRG := flag_executeAll Calls This EControllerHand.Right EButton.Grip
  simp only [FUxtDefaultHandTracker.Flag] at hLS hLG hRS hRG
  refine ⟨?_, ?_, ?_, ?_⟩
  · rw [hLS]; cases LastEvent Calls EControllerHand.Left EButton.Select <;> rfl
  · rw [hLG]; cases LastEvent Calls EControllerHand.Left EButton.Grip <;> rfl
  · rw [hRS]; cases LastEvent Calls EControllerHand.Right EButton.Select <;> rfl
  · rw [hRG]; cases LastEvent Calls EControllerHand.Right EButton.Grip <;> rfl

/-- C5: each of the eight handlers sets the flag named by its hand and button
to true (press) or false (release), leaves the other three flags, both
controller data and the rest of the subsystem unchanged, and is idempotent;
two handlers for different flags commute. -/
theorem handler_writes_only_its_flag (This : UUxtDefaultHandTrackerSubsystem)
    (H H2 : EButtonHandler) (hOther : H.Hand ≠ H2.Hand ∨ H.Button ≠ H2.Button) :
    (H.Execute This).DefaultHandTracker.Flag H.Hand H.Button = H.IsPress ∧
    (∀ Hand Button, (Hand ≠ H.Hand ∨ Button ≠ H.Button) →
      (H.Execute This).DefaultHandTracker.Flag Hand Button
        = This.DefaultHandTracker.Flag Hand Button) ∧
    (H.Execute This).DefaultHandTracker.ControllerData_Left
      = This.DefaultHandTracker.ControllerData_Left ∧
    (H.Execute This).DefaultHandTracker.ControllerData_Right
      = This.DefaultHandTracker.ControllerData_Right ∧
    (H.Execute This).InputMappingContext = This.InputMappingContext ∧
    (H.Execute This).TickDelegateHandle = This.TickDelegateHandle ∧
    (H.Execute This).PostLoginHandle = This.PostLoginHandle ∧
    (H.Execute This).LogoutHandle = This.LogoutHandle ∧
    H.Execute (H.Execute This) = H.Execute This ∧
    H.Execute (H2.Execute This) = H2.Execute (H.Execute This) := by
  refine ⟨?_, ?_, ?_, ?_, ?_, ?_, ?_, ?_, ?_, ?_⟩
  · cases H <;> rfl
  · intro Hand Button hNe
    rw [flag_execute]
    have : ¬ (H.Hand = Hand ∧ H.Button = Button) := by
      rintro ⟨h1, h2⟩
      rcases hNe with h | h
      · exact h h1.symm
      · exact h h2.symm
    simp [this]
  · cases H <;> rfl
  · cases H <;> rfl
  · cases H <;> rfl
  · cases H <;> rfl
  · cases H <;> rfl
  · cases H <;> rfl
  · cases H <;> rfl
  · cases H <;> cases H2 <;>
      first
        | rfl
        | (exfalso; rcases hOther with h | h <;> exact h rfl)

theorem handler_writes_only_its_flag_witness :
    (EButtonHandler.OnLeftSelectPressed.Hand ≠ EButtonHandler.OnRightGripReleased.Hand ∨
      EButtonHandler.OnLeftSelectPressed.Button ≠ EButtonHandler.OnRightGripReleased.Button) ∧
    (OnLeftSelectPressed {}).DefaultHandTracker.bIsSelectPressed_Left = true ∧
    OnLeftSelectPressed (OnRightGripReleased {}) = OnRightGripReleased (OnLeftSelectPressed {}) ∧
    EButtonHandler.OnLeftSelectPressed.Execute
        (EButtonHandler.OnRightGripReleased.Execute {})
      = EButtonHandler.OnRightGripReleased.Execute (EButtonHandler.OnLeftSelectPressed.Execute {}) :=
  ⟨by decide, rfl, rfl,
   (handler_writes_only_its_flag {} EButtonHandler.OnLeftSelectPressed
      EButtonHandler.OnRightGripReleased (by decide)).2.2.2.2.2.2.2.2.2⟩

/-! ## Properties of login and logout -/

theorem hasMappingContext_addMappingContext (E : UEnhancedInputLocalPlayerSubsystem)
    (Context : UInputMappingContextRef) (Priority : Int) :
    (E.AddMappingContext Context Priority).HasMappingContext Context = true := by
  simp [UEnhancedInputLocalPlayerSubsystem.AddMappingContext,
    UEnhancedInputLocalPlayerSubsystem.HasMappingContext]

theorem setup_local_state (S : FProgramState) (P : APlayerController)
    (hLocal : P.IsLocalController = true) :
    (SetupForLocalPlayer S P).1 =
      { This := { S.This with TickDelegateHandle := { ID := S.Globals.GNextID + 1 } },
        Globals := { S.Globals with
          GNextID := S.Globals.GNextID + 1,
          OnWorldPreActorTick := S.Globals.OnWorldPreActorTick ++
            [{ Handle := { ID := S.Globals.GNextID + 1 },
               UserObject := UObjectRef.DefaultHandTrackerSubsystem }],
          ModularFeatures := S.Globals.ModularFeatures ++
            [(IUxtHandTracker.GetModularFeatureName, IModularFeatureRef.DefaultHandTracker)] } } := by
  simp [SetupForLocalPlayer, hLocal, FEngineGlobals.AddUObject,
    FEngineGlobals.RegisterModularFeature]

theorem setup_local_registers (S : FProgramState) (P : APlayerController)
    (hLocal : P.IsLocalController = true) :
    RegisteredBetween S (SetupForLocalPlayer S P).1 := by
  rw [setup_local_state S P hLocal]
  simp [RegisteredBetween, FDelegateHandle.IsValid]

/-- C7: `SetupForLocalPlayer` and `OnGameModePostLogin` with a player
controller that is not local, and `OnGameModeLogout` with a controller that is
not a player controller or is a player controller that is not local, return
the program state and the controller as they were (no mapping context, no
binding, no tick delegate, no feature registration or removal, tracker
unchanged).  For a local controller the tick delegate and the modular feature
are registered whatever the input objects are: a null enhanced-input subsystem
leaves the local player as it was while an enhanced input component still
gets the eight bindings, and a null or not enhanced input component is left as
it was while an enhanced-input subsystem still ends with the mapping context. -/
theorem player_events_respect_null_checks (S : FProgramState)
    (Remote NoInputSystem NoInputComponent : APlayerController) (Exiting : AController)
    (hRemote : Remote.IsLocalController = false)
    (hExiting : Exiting = AController.Other ∨
      ∃ PC, Exiting = AController.PlayerController PC ∧ PC.IsLocalController = false)
    (hLocal1 : NoInputSystem.IsLocalController = true)
    (hNoSystem : NoInputSystem.GetLocalPlayer = none ∨
      ∃ LP, NoInputSystem.GetLocalPlayer = some LP ∧ LP.EnhancedInputSystem = none)
    (hLocal2 : NoInputComponent.IsLocalController = true)
    (hNoComponent : NoInputComponent.InputComponent = none ∨
      ∃ IC, NoInputComponent.InputComponent = some IC ∧ IC.bIsEnhancedInputComponent = false) :
    SetupForLocalPlayer S Remote = (S, Remote) ∧
    OnGameModePostLogin S Remote = (S, Remote) ∧
    OnGameModeLogout S Exiting = (S, Exiting) ∧
    RegisteredBetween S (SetupForLocalPlayer S NoInputSystem).1 ∧
    (SetupForLocalPlayer S NoInputSystem).2.GetLocalPlayer = NoInputSystem.GetLocalPlayer ∧
    (∀ IC, NoInputSystem.InputComponent = some IC → IC.bIsEnhancedInputComponent = true →
      (SetupForLocalPlayer S NoInputSystem).2.InputComponent = some (BindButtonActions IC)) ∧
    RegisteredBetween S (SetupForLocalPlayer S NoInputComponent).1 ∧
    (SetupForLocalPlayer S NoInputComponent).2.InputComponent = NoInputComponent.InputComponent ∧
    (∀ LP E, NoInputComponent.GetLocalPlayer = some LP → LP.EnhancedInputSystem = some E →
      ∃ LP2 E2, (SetupForLocalPlayer S NoInputComponent).2.GetLocalPlayer = some LP2 ∧
        LP2.EnhancedInputSystem = some E2 ∧
        E2.HasMappingContext S.This.InputMappingContext = true) := by
  refine ⟨?_, ?_, ?_, setup_local_registers S _ hLocal1, ?_, ?_,
    setup_local_registers S _ hLocal2, ?_, ?_⟩
  · simp [SetupForLocalPlayer, hRemote]
  · simp [OnGameModePostLogin, SetupForLocalPlayer, hRemote]
  · rcases hExiting with h | ⟨PC, h, hPC⟩
    · subst h; rfl
    · subst h; simp [OnGameModeLogout, hPC]
  · rcases hNoSystem with h | ⟨LP, h, hLP⟩
    · simp [SetupForLocalPlayer, hLocal1, h]
    · simp [SetupForLocalPlayer, hLocal1, h, hLP]
  · intro IC hIC hEnh
    simp [SetupForLocalPlayer, hLocal1, hIC, hEnh]
  · rcases hNoComponent with h | ⟨IC, h, hIC⟩
    · simp [SetupForLocalPlayer, hLocal2, h]
    · simp [SetupForLocalPlayer, hLocal2, h, hIC]
  · intro LP E hLP hE
    cases hHas : E.HasMappingContext S.This.InputMappingContext with
    | true =>
      exact ⟨LP, E, by simp [SetupForLocalPlayer, hLocal2, hLP, hE, hHas], hE, hHas⟩
    | false =>
      have hAdded : (SetupForLocalPlayer S NoInputComponent).2.GetLocalPlayer =
          some (ULocalPlayer.mk (some (E.AddMappingContext S.This.InputMappingContext 0))
            LP.XRSimulationSubsystem) := by
        simp [SetupForLocalPlayer, hLocal2, hLP, hE, hHas]
      exact ⟨_, _, hAdded, rfl, hasMappingContext_addMappingContext E _ 0⟩

theorem player_events_respect_null_checks_witness :
    SampleRemotePlayer.IsLocalController = false ∧
    SampleLocalPlayerNoInputSystem.IsLocalController = true ∧
    SampleLocalPlayerNoComponent.IsLocalController = true ∧
    SetupForLocalPlayer SampleStateAllPressed SampleRemotePlayer
      = (SampleStateAllPressed, SampleRemotePlayer) ∧
    OnGameModeLogout SampleStateAllPressed (AController.PlayerController SampleRemotePlayer)
      = (SampleStateAllPressed, AController.PlayerController SampleRemotePlayer) ∧
    TickCallbackCount (SetupForLocalPlayer SampleStateAllPressed SampleLocalPlayerNoInputSystem).1 = 1 ∧
    TrackerFeatureCount (SetupForLocalPlayer SampleStateAllPressed SampleLocalPlayerNoComponent).1 = 1 ∧
    RegisteredBetween SampleStateAllPressed
      (SetupForLocalPlayer SampleStateAllPressed SampleLocalPlayerNoInputSystem).1 ∧
    RegisteredBetween SampleStateAllPressed
      (SetupForLocalPlayer SampleStateAllPressed SampleLocalPlayerNoComponent).1 ∧
    (SetupForLocalPlayer SampleStateAllPressed SampleLocalPlayerNoComponent).2.InputComponent
      = SampleLocalPlayerNoComponent.InputComponent :=
  have h := player_events_respect_null_checks SampleStateAllPressed SampleRemotePlayer
    SampleLocalPlayerNoInputSystem SampleLocalPlayerNoComponent
    (AController.PlayerController SampleRemotePlayer) rfl
    (Or.inr ⟨SampleRemotePlayer, rfl, rfl⟩) rfl (Or.inr ⟨{}, rfl, rfl⟩) rfl (Or.inl rfl)
  ⟨rfl, rfl, rfl, h.1, h.2.2.1, by decide, by decide, h.2.2.2.1, h.2.2.2.2.2.2.1,
   h.2.2.2.2.2.2.2.1⟩

theorem countP_filter_add (l : List FDelegateInstance) (p q : FDelegateInstance → Bool) :
    (l.filter (fun B => !q B)).countP p + l.countP (fun B => p B && q B) = l.countP p := by
  induction l with
  | nil => rfl
  | cons B l ih =>
    cases hp : p B <;> cases hq : q B <;>
      simp [List.filter_cons, List.countP_cons, hp, hq] <;> omega

theorem setup_keeps_locality (S : FProgramState) (P : APlayerController) :
    (SetupForLocalPlayer S P).2.IsLocalController = P.IsLocalController := by
  unfold SetupForLocalPlayer
  split <;> rfl

theorem loginAll_local (Ps : List APlayerController) :
    ∀ S : FProgramState, (∀ P ∈ Ps, P.IsLocalController = true) → HandlesGenerated S.Globals →
      HandlesGenerated (LoginAll S Ps).1.Globals ∧
      TickCallbackCount (LoginAll S Ps).1 = TickCallbackCount S + Ps.length ∧
      TrackerFeatureCount (LoginAll S Ps).1 = TrackerFeatureCount S + Ps.length ∧
      (∀ Q ∈ (LoginAll S Ps).2, Q.IsLocalController = true) ∧
      (LoginAll S Ps).2.length = Ps.length ∧
      (Ps ≠ [] →
        (LoginAll S Ps).1.This.TickDelegateHandle.IsValid = true ∧
        (LoginAll S Ps).1.Globals.OnWorldPreActorTick.countP
          (fun B => B.UserObject == UObjectRef.DefaultHandTrackerSubsystem &&
            B.Handle == (LoginAll S Ps).1.This.TickDelegateHandle) = 1) := by
  induction Ps with
  | nil =>
    intro S _ hGen
    exact ⟨hGen, rfl, rfl, by simp [LoginAll], rfl, fun h => absurd rfl h⟩
  | cons P Ps ih =>
    intro S hLocal hGen
    have hP : P.IsLocalController = true := hLocal P (List.mem_cons_self _ _)
    have hPs : ∀ Q ∈ Ps, Q.IsLocalController = true :=
      fun Q hQ => hLocal Q (List.mem_cons_of_mem _ hQ)
    have hStep := setup_local_state S P hP
    have hGen1 : HandlesGenerated (SetupForLocalPlayer S P).1.Globals := by
      rw [hStep]
      intro B hB
      simp only [List.mem_append, List.mem_singleton] at hB
      rcases hB with hB | hB
      · exact Nat.le_succ_of_le (hGen B hB)
      · subst hB
        exact Nat.le_refl _
    have hTick1 : TickCallbackCount (SetupForLocalPlayer S P).1 = TickCallbackCount S + 1 := by
      rw [hStep]
      simp [TickCallbackCount, List.countP_append]
    have hFeat1 : TrackerFeatureCount (SetupForLocalPlayer S P).1 = TrackerFeatureCount S + 1 := by
      rw [hStep]
      simp [TrackerFeatureCount, List.count_append]
    obtain ⟨ihGen, ihTick, ihFeat, ihLocal, ihLen, ihLast⟩ :=
      ih (SetupForLocalPlayer S P).1 hPs hGen1
    refine ⟨ihGen, ?_, ?_, ?_, ?_, ?_⟩
    · show TickCallbackCount (LoginAll (SetupForLocalPlayer S P).1 Ps).1 = _
      rw [ihTick, hTick1, List.length_cons]
      omega
    · show TrackerFeatureCount (LoginAll (SetupForLocalPlayer S P).1 Ps).1 = _
      rw [ihFeat, hFeat1, List.length_cons]
      omega
    · intro Q hQ
      have hQ2 : Q = (SetupForLocalPlayer S P).2 ∨
          Q ∈ (LoginAll (SetupForLocalPlayer S P).1 Ps).2 := by
        simpa [LoginAll, OnGameModePostLogin] using hQ
      rcases hQ2 with h | h
      · rw [h, setup_keeps_locality, hP]
      · exact ihLocal Q h
    · show ((SetupForLocalPlayer S P).2 :: (LoginAll (SetupForLocalPlayer S P).1 Ps).2).length = _
      rw [List.length_cons, ihLen, List.length_cons]
    · intro _
      show (LoginAll (SetupForLocalPlayer S P).1 Ps).1.This.TickDelegateHandle.IsValid = true ∧
        (LoginAll (SetupForLocalPlayer S P).1 Ps).1.Globals.OnWorldPreActorTick.countP
          (fun B => B.UserObject == UObjectRef.DefaultHandTrackerSubsystem &&
            B.Handle == (LoginAll (SetupForLocalPlayer S P).1 Ps).1.This.TickDelegateHandle) = 1
      cases Ps with
      | cons Q Qs => exact ihLast (List.cons_ne_nil _ _)
      | nil =>
        show (SetupForLocalPlayer S P).1.This.TickDelegateHandle.IsValid = true ∧
          (SetupForLocalPlayer S P).1.Globals.OnWorldPreActorTick.countP
            (fun B => B.UserObject == UObjectRef.DefaultHandTrackerSubsystem &&
              B.Handle == (SetupForLocalPlayer S P).1.This.TickDelegateHandle) = 1
        rw [hStep]
        refine ⟨by simp [FDelegateHandle.IsValid], ?_⟩
        simp only [List.countP_append, List.countP_cons, List.countP_nil]
        have hOld : S.Globals.OnWorldPreActorTick.countP
            (fun B => B.UserObject == UObjectRef.DefaultHandTrackerSubsystem &&
              B.Handle == ({ ID := S.Globals.GNextID + 1 } : FDelegateHandle)) = 0 := by
          rw [List.countP_eq_zero]
          intro B hB
          have hLe := hGen B hB
          have hNe : B.Handle ≠ ({ ID := S.Globals.GNextID + 1 } : FDelegateHandle) := by
            intro hEq
            rw [hEq] at hLe
            simp at hLe
          simp [hNe]
        rw [hOld]
        simp

theorem logout_local_state (S : FProgramState) (P : APlayerController)
    (hLocal : P.IsLocalController = true) (hValid : S.This.TickDelegateHandle.IsValid = true) :
    (OnGameModeLogout S (AController.PlayerController P)).1 =
      { S with Globals := { S.Globals with
          OnWorldPreActorTick := S.Globals.OnWorldPreActorTick.filter
            (fun B => !(B.Handle == S.This.TickDelegateHandle)),
          ModularFeatures := S.Globals.ModularFeatures.erase
            (IUxtHandTracker.GetModularFeatureName, IModularFeatureRef.DefaultHandTracker) } } := by
  simp [OnGameModeLogout, hLocal, FEngineGlobals.Remove, FEngineGlobals.UnregisterModularFeature,
    hValid, bne]

theorem logoutAll_local (Qs : List APlayerController) :
    ∀ S : FProgramState, (∀ Q ∈ Qs, Q.IsLocalController = true) →
      S.This.TickDelegateHandle.IsValid = true →
      (LogoutAll S Qs).Globals.OnWorldPreActorTick =
        (if Qs.length = 0 then S.Globals.OnWorldPreActorTick
         else S.Globals.OnWorldPreActorTick.filter
           (fun B => !(B.Handle == S.This.TickDelegateHandle))) ∧
      TrackerFeatureCount (LogoutAll S Qs) = TrackerFeatureCount S - Qs.length := by
  induction Qs with
  | nil =>
    intro S _ _
    exact ⟨rfl, rfl⟩
  | cons Q Qs ih =>
    intro S hLocal hValid
    have hQ : Q.IsLocalController = true := hLocal Q (List.mem_cons_self _ _)
    have hQs : ∀ R ∈ Qs, R.IsLocalController = true :=
      fun R hR => hLocal R (List.mem_cons_of_mem _ hR)
    have hStep := logout_local_state S Q hQ hValid
    have hThis : (OnGameModeLogout S (AController.PlayerController Q)).1.This = S.This := by
      rw [hStep]
    have hValid1 :
        (OnGameModeLogout S (AController.PlayerController Q)).1.This.TickDelegateHandle.IsValid
          = true := by
      rw [hThis]; exact hValid
    obtain ⟨ihTick, ihFeat⟩ :=
      ih (OnGameModeLogout S (AController.PlayerController Q)).1 hQs hValid1
    constructor
    · show (LogoutAll (OnGameModeLogout S (AController.PlayerController Q)).1 Qs
        ).Globals.OnWorldPreActorTick = _
      rw [ihTick, hThis, hStep]
      by_cases hNil : Qs.length = 0
      · simp [hNil]
      · simp [hNil, List.filter_filter]
    · show TrackerFeatureCount (LogoutAll (OnGameModeLogout S (AController.PlayerController Q)).1 Qs)
        = _
      rw [ihFeat, hStep]
      simp only [TrackerFeatureCount, List.count_erase_self, List.length_cons]
      omega

theorem loginThenLogoutAll_counts (S : FProgramState) (Players : List APlayerController)
    (hLocal : ∀ P ∈ Players, P.IsLocalController = true) (hGen : HandlesGenerated S.Globals) :
    TickCallbackCount (LoginThenLogoutAll S Players)
      = TickCallbackCount S + Players.length - min 1 Players.length ∧
    TrackerFeatureCount (LoginThenLogoutAll S Players) = TrackerFeatureCount S := by
  obtain ⟨_, hTick, hFeat, hLocal2, hLen, hLast⟩ := loginAll_local Players S hLocal hGen
  cases Players with
  | nil => simp [LoginThenLogoutAll, LoginAll, LogoutAll]
  | cons P Ps =>
    obtain ⟨hValid, hOne⟩ := hLast (List.cons_ne_nil _ _)
    have hNil2 : (LoginAll S (P :: Ps)).2.length ≠ 0 := by
      rw [hLen]
      simp
    obtain ⟨hOutTick, hOutFeat⟩ := logoutAll_local (LoginAll S (P :: Ps)).2
      (LoginAll S (P :: Ps)).1 hLocal2 hValid
    constructor
    · have hSplit := countP_filter_add (LoginAll S (P :: Ps)).1.Globals.OnWorldPreActorTick
        (fun B => B.UserObject == UObjectRef.DefaultHandTrackerSubsystem)
        (fun B => B.Handle == (LoginAll S (P :: Ps)).1.This.TickDelegateHandle)
      rw [hOne] at hSplit
      unfold TickCallbackCount at hTick ⊢
      unfold LoginThenLogoutAll
      rw [hOutTick, if_neg hNil2]
      simp only [List.length_cons] at hTick ⊢
      omega
    · unfold LoginThenLogoutAll
      rw [hOutFeat, hFeat, hLen]
      omega

/-- From a state with nothing registered, logins for any number of local
player controllers followed by logouts for those controllers leave all but one
of the tick callbacks registered, while the feature registry is balanced. -/
theorem logouts_remove_one_tick_callback (S : FProgramState) (Players : List APlayerController) :
    TickCallbackCount (LoginThenLogoutAll S.Unregistered (Players.map APlayerController.AsLocal))
      = Players.length - 1 ∧
    TrackerFeatureCount (LoginThenLogoutAll S.Unregistered (Players.map APlayerController.AsLocal))
      = 0 := by
  have hLocal : ∀ P ∈ Players.map APlayerController.AsLocal, P.IsLocalController = true := by
    intro P hP
    obtain ⟨Q, _, hQ⟩ := List.mem_map.mp hP
    rw [← hQ]
    rfl
  have hGen : HandlesGenerated S.Unregistered.Globals := by
    intro B hB
    simp [FProgramState.Unregistered] at hB
  obtain ⟨hTick, hFeat⟩ := loginThenLogoutAll_counts S.Unregistered _ hLocal hGen
  have hTick0 : TickCallbackCount S.Unregistered = 0 := rfl
  have hFeat0 : TrackerFeatureCount S.Unregistered = 0 := rfl
  rw [hTick, hFeat, hTick0, hFeat0, List.length_map]
  refine ⟨?_, rfl⟩
  cases Players with
  | nil => rfl
  | cons P Ps =>
    simp only [List.length_cons]
    omega

/-- C9 at n = 2: after `OnGameModePostLogin` for two local player controllers
followed by `OnGameModeLogout` for both, one `OnWorldPreActorTick` callback of
the subsystem (the one of the first login) is still registered, while the
tracker is no longer in the feature registry; with one login and one logout
nothing remains. -/
theorem two_logins_two_logouts_leave_tick_callback :
    (LoginThenLogoutAll {} [SampleLocalPlayer, SampleLocalPlayer]).Globals.OnWorldPreActorTick
      = [{ Handle := { ID := 1 }, UserObject := UObjectRef.DefaultHandTrackerSubsystem }] ∧
    TickCallbackCount (LoginThenLogoutAll {} [SampleLocalPlayer, SampleLocalPlayer]) = 1 ∧
    TrackerFeatureCount (LoginThenLogoutAll {} [SampleLocalPlayer, SampleLocalPlayer]) = 0 ∧
    (LoginThenLogoutAll {} [SampleLocalPlayer, SampleLocalPlayer]).This.TickDelegateHandle
      = { ID := 2 } ∧
    TickCallbackCount (LoginThenLogoutAll {} [SampleLocalPlayer]) = 0 ∧
    TrackerFeatureCount (LoginThenLogoutAll {} [SampleLocalPlayer]) = 0 := by
  refine ⟨?_, ?_, ?_, ?_, ?_, ?_⟩ <;> decide

end UxtDefaultHandTracker
